import Mathlib

/-!
Shallow embedding of `src/controll.cpp`, the reactive obstacle-avoidance
controller for a two-wheeled boat with three HC-SR04 ultrasonic sensors.

Modelling conventions:
* C++ `float` quantities (distances, duty cycles, ticker periods) are modelled
  as exact rationals `ℚ`; a decimal literal of the source (such as `0.9f` or
  `0.02f`) becomes the corresponding exact rational (`9/10`, `2/100`).
* Microsecond timestamps delivered to the interrupt handlers are `ℤ`.
* The mbed `Timer`, `Ticker` and `Timeout` objects are modelled by explicit
  fields of the sensor state, and interrupt/callback delivery by an event step
  function; `Serial` debug printing is outside the modelled state.
* The `Sonar` objects are globals in the source, so their storage is
  zero-initialised before the constructor body runs: the members `begin` and
  `end` (here `beginTs`/`endTs`, since `end` is reserved in Lean) start at 0.
-/

/-- C++ conversion `int(x)` of a floating value to `int`: truncation toward
zero, as used in `int(20*r_duty_cycle)` in the motor functions. -/
def cppInt (x : ℚ) : ℤ := if 0 ≤ x then ⌊x⌋ else ⌈x⌉

/-- Pulse widths (in µs) currently written to the four PWM channels:
`aIn1`/`aIn2` drive the right-hand motor and `bIn1`/`bIn2` the left-hand
motor. `main` configures every channel with `period_us(20)`. -/
structure PwmState where
  aIn1 : ℤ
  aIn2 : ℤ
  bIn1 : ℤ
  bIn2 : ℤ
  deriving DecidableEq

/-- Motor function `forward(l_duty_cycle, r_duty_cycle)` (lines 180-186):
`aIn1 := int(20*r)`, `aIn2 := 0`, `bIn1 := int(20*l)`, `bIn2 := 0`. -/
def forward (l_duty_cycle r_duty_cycle : ℚ) : PwmState :=
  { aIn1 := cppInt (20 * r_duty_cycle), aIn2 := 0
    bIn1 := cppInt (20 * l_duty_cycle), bIn2 := 0 }

/-- Motor function `backward(l_duty_cycle, r_duty_cycle)` (lines 191-198). -/
def backward (l_duty_cycle r_duty_cycle : ℚ) : PwmState :=
  { aIn1 := 0, aIn2 := cppInt (20 * r_duty_cycle)
    bIn1 := 0, bIn2 := cppInt (20 * l_duty_cycle) }

/-- Motor function `stop()` (lines 203-209): all four channels to 0. -/
def stop : PwmState :=
  { aIn1 := 0, aIn2 := 0, bIn1 := 0, bIn2 := 0 }

/-- Motor function `turnRight(l_duty_cycle, r_duty_cycle)` (lines 214-220). -/
def turnRight (l_duty_cycle r_duty_cycle : ℚ) : PwmState :=
  { aIn1 := 0, aIn2 := cppInt (20 * r_duty_cycle)
    bIn1 := cppInt (20 * l_duty_cycle), bIn2 := 0 }

/-- Motor function `turnLeft(l_duty_cycle, r_duty_cycle)` (lines 225-231). -/
def turnLeft (l_duty_cycle r_duty_cycle : ℚ) : PwmState :=
  { aIn1 := cppInt (20 * r_duty_cycle), aIn2 := 0
    bIn1 := 0, bIn2 := cppInt (20 * l_duty_cycle) }

/-- Which motor function one control-loop iteration invokes, with its two
duty-cycle arguments. -/
inductive Cmd where
  | forward (l r : ℚ)
  | backward (l r : ℚ)
  | turnLeft (l r : ℚ)
  | turnRight (l r : ℚ)
  deriving DecidableEq

/-- One iteration of the "multi level turning" decision logic in `main`
(lines 145-168), mapping the three current sonar readings to the motor
command issued this cycle. -/
def controlDecision (frontDist leftDist rightDist : ℚ) : Cmd :=
  if frontDist < 35 then
    Cmd.backward (9/10) (9/10)
  else
    if leftDist - rightDist > 5 then
      if rightDist < 15 then Cmd.turnLeft 1 1 else Cmd.turnLeft (7/10) 1
    else if rightDist - leftDist > 5 then
      if leftDist < 15 then Cmd.turnRight 1 1 else Cmd.turnRight 1 (7/10)
    else
      Cmd.forward 1 1

/-- State of one `Sonar` object (lines 7-15): the trigger output line, the
mbed `Ticker` (periodic callback; `some p` when attached with period `p`
seconds), the mbed `Timeout` (one-shot callback; `some d` when armed with
delay `d` seconds), the mbed `Timer` (running flag, accumulated elapsed µs
when stopped, absolute µs timestamp at which it was last started), the
members `begin`/`end` (named `beginTs`/`endTs` here, `end` being reserved in
Lean) and the raw pulse width `distance`. -/
structure SonarState where
  trigger : Bool
  tickerPeriod : Option ℚ
  timeoutDelay : Option ℚ
  timerRunning : Bool
  timerAcc : ℤ
  timerStartAt : ℤ
  beginTs : ℤ
  endTs : ℤ
  distance : ℚ
  deriving DecidableEq

namespace Sonar

/-- mbed `Timer::read_us()` at absolute time `now`: accumulated elapsed time,
plus the time since the last start while the timer is running. -/
def timerReadUs (now : ℤ) (s : SonarState) : ℤ :=
  s.timerAcc + if s.timerRunning then now - s.timerStartAt else 0

/-- mbed `Timer::reset()` at absolute time `now`: elapsed time back to 0. -/
def timerReset (now : ℤ) (s : SonarState) : SonarState :=
  { s with timerAcc := 0, timerStartAt := now }

/-- mbed `Timer::start()` at absolute time `now`: a no-op when already
running. -/
def timerStart (now : ℤ) (s : SonarState) : SonarState :=
  if s.timerRunning then s else { s with timerRunning := true, timerStartAt := now }

/-- mbed `Timer::stop()` at absolute time `now`: freeze the elapsed time. -/
def timerStop (now : ℤ) (s : SonarState) : SonarState :=
  { s with timerAcc := timerReadUs now s, timerRunning := false }

/-- Constructor `Sonar::Sonar` (lines 24-30): `trigger = 0`, `distance = -1`.
The objects are globals, so `begin`/`end` start zero-initialised; the mbed
`Timer` starts stopped at 0 and neither `Ticker` nor `Timeout` is attached. -/
def init : SonarState :=
  { trigger := false, tickerPeriod := none, timeoutDelay := none
    timerRunning := false, timerAcc := 0, timerStartAt := 0
    beginTs := 0, endTs := 0, distance := -1 }

/-- Rising-edge interrupt handler `Sonar::echo_in` (lines 49-53), delivered at
absolute time `now` µs: `timer.reset(); timer.start(); begin = timer.read_us()`. -/
def echo_in (now : ℤ) (s : SonarState) : SonarState :=
  let s1 := timerStart now (timerReset now s)
  { s1 with beginTs := timerReadUs now s1 }

/-- Falling-edge interrupt handler `Sonar::echo_fall` (lines 59-63), delivered
at absolute time `now` µs: `end = timer.read_us(); timer.stop();
distance = end - begin`. Note that the source has no guard on whether the
timer is running. -/
def echo_fall (now : ℤ) (s : SonarState) : SonarState :=
  let s1 := { s with endTs := timerReadUs now s }
  let s2 := timerStop now s1
  { s2 with distance := ((s2.endTs - s2.beginTs : ℤ) : ℚ) }

/-- Method `Sonar::start` (lines 35-37): `ticker.attach(background_read, 0.02f)`. -/
def start (s : SonarState) : SonarState :=
  { s with tickerPeriod := some (2/100) }

/-- Method `Sonar::stop` (lines 42-44): `ticker.detach()`. It does not touch
the `Timeout` nor the trigger line. -/
def stop (s : SonarState) : SonarState :=
  { s with tickerPeriod := none }

/-- Ticker callback `Sonar::background_read` (lines 76-79): `trigger = 1;
timeout.attach(trigger_toggle, 10.0e-6)`. -/
def background_read (s : SonarState) : SonarState :=
  { s with trigger := true, timeoutDelay := some (10/1000000) }

/-- Timeout callback `Sonar::trigger_toggle` (lines 69-71): `trigger = 0`. -/
def trigger_toggle (s : SonarState) : SonarState :=
  { s with trigger := false }

/-- Method `Sonar::read` (lines 84-86): `distance / 58.0f`. -/
def read (s : SonarState) : ℚ :=
  s.distance / 58

end Sonar

/-- An asynchronous event delivered to one `Sonar`: an echo edge at an
absolute time (µs), a call to `start`/`stop` from the foreground, the
periodic `Ticker` firing, or the one-shot `Timeout` firing. -/
inductive SEvent where
  | rise (t : ℤ)
  | fall (t : ℤ)
  | startCall
  | stopCall
  | tickerFire
  | timeoutFire
  deriving DecidableEq

/-- Effect of one event on a `Sonar`'s state. A detached `Ticker` calls
nobody, and a `Timeout` fires at most once after being armed (the mbed
runtime disarms it as it dispatches the callback). -/
def sonarStep (s : SonarState) : SEvent → SonarState
  | SEvent.rise t => Sonar.echo_in t s
  | SEvent.fall t => Sonar.echo_fall t s
  | SEvent.startCall => Sonar.start s
  | SEvent.stopCall => Sonar.stop s
  | SEvent.tickerFire =>
      if s.tickerPeriod.isSome then Sonar.background_read s else s
  | SEvent.timeoutFire =>
      if s.timeoutDelay.isSome then Sonar.trigger_toggle { s with timeoutDelay := none } else s

/-- State of a `Sonar` after a sequence of events from construction. -/
def sonarRun (es : List SEvent) : SonarState :=
  es.foldl sonarStep Sonar.init

/-- Test whether a list of events contains no falling edge. -/
def noFall (es : List SEvent) : Bool :=
  es.all fun e => match e with | SEvent.fall _ => false | _ => true

/-- Test whether running the events from state `s` ever delivers a falling
edge while the timer is running, i.e. completes a rising/falling measurement
pair. -/
def completesAPair : SonarState → List SEvent → Bool
  | _, [] => false
  | s, e :: es =>
      (match e with | SEvent.fall _ => s.timerRunning | _ => false)
      || completesAPair (sonarStep s e) es

/-- Property of one wheel's pair of directional PWM channels: at most one of
the two pulse widths is nonzero, and both lie within `[0, 20]`, the period
configured by `period_us(20)`. -/
def pairOk (x y : ℤ) : Prop :=
  (x = 0 ∨ y = 0) ∧ 0 ≤ x ∧ x ≤ 20 ∧ 0 ≤ y ∧ y ≤ 20

/-- Actuator invariant for a full write of the four PWM channels. -/
def pwmOk (p : PwmState) : Prop :=
  pairOk p.aIn1 p.aIn2 ∧ pairOk p.bIn1 p.bIn2

/-- Trigger-line safety property used for the cancellation claim: whenever no
one-shot `Timeout` is pending, the trigger line is low. -/
def triggerInv (s : SonarState) : Prop :=
  s.timeoutDelay = none → s.trigger = false

example : controlDecision 10 50 50 = Cmd.backward (9/10) (9/10) := by norm_num [controlDecision]
example : controlDecision 100 40 10 = Cmd.turnLeft 1 1 := by norm_num [controlDecision]
example : controlDecision 100 40 25 = Cmd.turnLeft (7/10) 1 := by norm_num [controlDecision]
example : controlDecision 100 20 18 = Cmd.forward 1 1 := by norm_num [controlDecision]
example : controlDecision 100 20 15 = Cmd.forward 1 1 := by norm_num [controlDecision]
example : controlDecision 100 10 40 = Cmd.turnRight 1 1 := by norm_num [controlDecision]
example : controlDecision 100 25 40 = Cmd.turnRight 1 (7/10) := by norm_num [controlDecision]

example : Sonar.read Sonar.init = -1 / 58 := by norm_num [Sonar.read, Sonar.init]
example : Sonar.read (Sonar.echo_fall 390 (Sonar.echo_in 100 Sonar.init)) = 5 := by
  norm_num [Sonar.read, Sonar.echo_fall, Sonar.echo_in, Sonar.timerReadUs,
    Sonar.timerReset, Sonar.timerStart, Sonar.timerStop, Sonar.init]
example : (sonarRun [SEvent.fall 5]).distance = 0 := by
  norm_num [sonarRun, sonarStep, Sonar.echo_fall, Sonar.timerReadUs, Sonar.timerStop,
    Sonar.init, List.foldl]
example : completesAPair Sonar.init [SEvent.fall 5] = false := by
  norm_num [completesAPair, Sonar.init]

theorem controlDecision_of_front_lt (frontDist leftDist rightDist : ℚ)
    (h : frontDist < 35) :
    controlDecision frontDist leftDist rightDist = Cmd.backward (9/10) (9/10) := by
  unfold controlDecision
  rw [if_pos h]

theorem cppInt_bounds {x : ℚ} (h0 : 0 ≤ x) (h20 : x ≤ 20) :
    0 ≤ cppInt x ∧ cppInt x ≤ 20 := by
  unfold cppInt
  rw [if_pos h0]
  refine ⟨Int.floor_nonneg.mpr h0, ?_⟩
  calc ⌊x⌋ ≤ ⌊(20 : ℚ)⌋ := Int.floor_le_floor h20
    _ = 20 := by norm_num

theorem pairOk_left {x : ℤ} (h0 : 0 ≤ x) (h20 : x ≤ 20) : pairOk x 0 :=
  ⟨Or.inr rfl, h0, h20, le_refl 0, by norm_num⟩

theorem pairOk_right {x : ℤ} (h0 : 0 ≤ x) (h20 : x ≤ 20) : pairOk 0 x :=
  ⟨Or.inl rfl, le_refl 0, by norm_num, h0, h20⟩

theorem echo_in_eq (t : ℤ) (s : SonarState) :
    Sonar.echo_in t s
      = { s with timerRunning := true, timerAcc := 0, timerStartAt := t, beginTs := 0 } := by
  cases s with
  | mk tg tp td run acc st bts ets dst =>
      simp only [Sonar.echo_in, Sonar.timerStart, Sonar.timerReset, Sonar.timerReadUs]
      cases run <;> simp

theorem echo_fall_fields (t : ℤ) (s : SonarState) :
    (Sonar.echo_fall t s).trigger = s.trigger ∧
    (Sonar.echo_fall t s).tickerPeriod = s.tickerPeriod ∧
    (Sonar.echo_fall t s).timeoutDelay = s.timeoutDelay :=
  ⟨rfl, rfl, rfl⟩

theorem sonarStep_distance_of_ne_fall (s : SonarState) (e : SEvent)
    (h : ∀ t, e ≠ SEvent.fall t) :
    (sonarStep s e).distance = s.distance := by
  cases e with
  | rise t => rw [show sonarStep s (SEvent.rise t) = Sonar.echo_in t s from rfl, echo_in_eq]
  | fall t => exact absurd rfl (h t)
  | startCall => rfl
  | stopCall => rfl
  | tickerFire =>
      simp only [sonarStep]
      split <;> rfl
  | timeoutFire =>
      simp only [sonarStep]
      split <;> rfl

theorem foldl_distance_of_noFall (es : List SEvent) :
    ∀ s : SonarState, noFall es = true →
      (es.foldl sonarStep s).distance = s.distance := by
  induction es with
  | nil => intro s _; rfl
  | cons e es ih =>
      intro s h
      simp only [noFall, List.all_cons, Bool.and_eq_true] at h
      rw [List.foldl_cons, ih (sonarStep s e) h.2]
      apply sonarStep_distance_of_ne_fall
      intro t het
      subst het
      exact Bool.noConfusion h.1

theorem sonarStep_triggerInv (s : SonarState) (e : SEvent) (h : triggerInv s) :
    triggerInv (sonarStep s e) := by
  cases e with
  | rise t =>
      intro hnone
      rw [show sonarStep s (SEvent.rise t) = Sonar.echo_in t s from rfl, echo_in_eq] at hnone ⊢
      exact h hnone
  | fall t =>
      intro hnone
      exact h hnone
  | startCall =>
      intro hnone
      exact h hnone
  | stopCall =>
      intro hnone
      exact h hnone
  | tickerFire =>
      intro hnone
      by_cases hc : s.tickerPeriod.isSome
      · rw [show sonarStep s SEvent.tickerFire = Sonar.background_read s from by
          simp [sonarStep, hc]] at hnone
        exact absurd hnone (by simp [Sonar.background_read])
      · rw [show sonarStep s SEvent.tickerFire = s from by simp [sonarStep, hc]] at hnone ⊢
        exact h hnone
  | timeoutFire =>
      intro hnone
      by_cases hc : s.timeoutDelay.isSome
      · rw [show sonarStep s SEvent.timeoutFire
            = Sonar.trigger_toggle { s with timeoutDelay := none } from by
          simp [sonarStep, hc]]
        rfl
      · rw [show sonarStep s SEvent.timeoutFire = s from by simp [sonarStep, hc]] at hnone ⊢
        exact h hnone

theorem foldl_triggerInv (es : List SEvent) :
    ∀ s : SonarState, triggerInv s → triggerInv (es.foldl sonarStep s) := by
  induction es with
  | nil => intro s h; exact h
  | cons e es ih =>
      intro s h
      rw [List.foldl_cons]
      exact ih _ (sonarStep_triggerInv s e h)

theorem sonarStep_ticker_none (s : SonarState) (e : SEvent)
    (hne : e ≠ SEvent.startCall) (h : s.tickerPeriod = none) :
    (sonarStep s e).tickerPeriod = none := by
  cases e with
  | rise t => rw [show sonarStep s (SEvent.rise t) = Sonar.echo_in t s from rfl, echo_in_eq]; exact h
  | fall t => exact h
  | startCall => exact absurd rfl hne
  | stopCall => rfl
  | tickerFire =>
      rw [show sonarStep s SEvent.tickerFire = s from by simp [sonarStep, h]]
      exact h
  | timeoutFire =>
      simp only [sonarStep]
      split <;> exact h

theorem foldl_ticker_none (es : List SEvent) :
    ∀ s : SonarState, SEvent.startCall ∉ es → s.tickerPeriod = none →
      (es.foldl sonarStep s).tickerPeriod = none := by
  induction es with
  | nil => intro s _ h; exact h
  | cons e es ih =>
      intro s hmem h
      rw [List.foldl_cons]
      exact ih _ (fun hin => hmem (List.mem_cons_of_mem e hin))
        (sonarStep_ticker_none s e (fun he => hmem (he ▸ List.mem_cons_self e es)) h)

theorem triggerInv_init : triggerInv Sonar.init := fun _ => rfl

/-- Claim C1: for every triple of readings, if the front reading is below 35
(the front-stop distance) the control loop emits the Backward command with
both duty cycles equal to 9/10, regardless of the lateral readings. -/
theorem front_stop_backward (frontDist leftDist rightDist : ℚ)
    (h : frontDist < 35) :
    controlDecision frontDist leftDist rightDist = Cmd.backward (9/10) (9/10) :=
  controlDecision_of_front_lt frontDist leftDist rightDist h

theorem front_stop_backward_witness :
    (10 : ℚ) < 35 ∧ controlDecision 10 50 50 = Cmd.backward (9/10) (9/10) :=
  ⟨by norm_num, front_stop_backward 10 50 50 (by norm_num)⟩

/-- Claim C2: with the front clear (reading at least 35), a left-minus-right
difference above 5 yields a left turn — sharp (both duty cycles 1) when the
right reading is below 15, gentle (one side reduced to 7/10) otherwise — and
symmetrically a right-minus-left difference above 5 yields a right turn with
the left reading below 15 as the sharp trigger. -/
theorem side_difference_turns (frontDist leftDist rightDist : ℚ)
    (hf : 35 ≤ frontDist) :
    (leftDist - rightDist > 5 →
      (rightDist < 15 →
        controlDecision frontDist leftDist rightDist = Cmd.turnLeft 1 1) ∧
      (15 ≤ rightDist →
        controlDecision frontDist leftDist rightDist = Cmd.turnLeft (7/10) 1)) ∧
    (rightDist - leftDist > 5 →
      (leftDist < 15 →
        controlDecision frontDist leftDist rightDist = Cmd.turnRight 1 1) ∧
      (15 ≤ leftDist →
        controlDecision frontDist leftDist rightDist = Cmd.turnRight 1 (7/10))) := by
  have hnf : ¬ frontDist < 35 := not_lt.mpr hf
  constructor
  · intro hlr
    constructor
    · intro hr
      unfold controlDecision
      rw [if_neg hnf, if_pos hlr, if_pos hr]
    · intro hr
      unfold controlDecision
      rw [if_neg hnf, if_pos hlr, if_neg (not_lt.mpr hr)]
  · intro hrl
    have hnlr : ¬ leftDist - rightDist > 5 := by push_neg; linarith
    constructor
    · intro hl
      unfold controlDecision
      rw [if_neg hnf, if_neg hnlr, if_pos hrl, if_pos hl]
    · intro hl
      unfold controlDecision
      rw [if_neg hnf, if_neg hnlr, if_pos hrl, if_neg (not_lt.mpr hl)]

theorem side_difference_turns_witness :
    35 ≤ (100 : ℚ) ∧ (40 : ℚ) - 10 > 5 ∧ (10 : ℚ) < 15 ∧
      controlDecision 100 40 10 = Cmd.turnLeft 1 1 :=
  ⟨by norm_num, by norm_num, by norm_num,
    ((side_difference_turns 100 40 10 (by norm_num)).1 (by norm_num)).1 (by norm_num)⟩

/-- Claim C3: with the front clear (reading at least 35), a left/right
difference of absolute value at most the threshold 5 — including exactly 5 —
triggers no turn: the command is Forward at duty cycles (1, 1); the turn
comparisons are strict. -/
theorem tie_break_forward (frontDist leftDist rightDist : ℚ)
    (hf : 35 ≤ frontDist) (hd : |leftDist - rightDist| ≤ 5) :
    controlDecision frontDist leftDist rightDist = Cmd.forward 1 1 := by
  have hnf : ¬ frontDist < 35 := not_lt.mpr hf
  obtain ⟨h1, h2⟩ := abs_le.mp hd
  unfold controlDecision
  rw [if_neg hnf, if_neg (by push_neg; linarith), if_neg (by push_neg; linarith)]

theorem tie_break_forward_witness :
    35 ≤ (100 : ℚ) ∧ |(20 : ℚ) - 15| ≤ 5 ∧
      controlDecision 100 20 15 = Cmd.forward 1 1 :=
  ⟨by norm_num, by norm_num, tie_break_forward 100 20 15 (by norm_num) (by norm_num)⟩

/-- Claim C4: if the rising-edge handler fires at time T0 and the falling-edge
handler fires at time T1 with T0 ≤ T1, a subsequent `read()` returns
(T1 - T0) / 58 (exact over ℚ; the source computes it in `float`). -/
theorem read_converts_pulse_width (s : SonarState) (T0 T1 : ℤ) (h : T0 ≤ T1) :
    Sonar.read (Sonar.echo_fall T1 (Sonar.echo_in T0 s)) = ((T1 - T0 : ℤ) : ℚ) / 58 := by
  rw [echo_in_eq]
  simp [Sonar.read, Sonar.echo_fall, Sonar.timerStop, Sonar.timerReadUs]

theorem read_converts_pulse_width_witness :
    (100 : ℤ) ≤ 390 ∧
      Sonar.read (Sonar.echo_fall 390 (Sonar.echo_in 100 Sonar.init))
        = ((390 - 100 : ℤ) : ℚ) / 58 :=
  ⟨by decide, read_converts_pulse_width Sonar.init 100 390 (by decide)⟩

/-- Claim C5 (counterexample to the claim as stated): the event trace
consisting of a single falling edge at time 7 completes no rising/falling
pair, yet `read()` afterwards returns 0, not the -1 sentinel fed through the
/58 conversion: the unguarded `echo_fall` overwrote the sentinel. -/
theorem read_sentinel_counterexample :
    completesAPair Sonar.init [SEvent.fall 7] = false ∧
    Sonar.read (sonarRun [SEvent.fall 7]) ≠ -1 / 58 := by
  constructor
  · rfl
  · norm_num [sonarRun, sonarStep, Sonar.echo_fall, Sonar.timerStop,
      Sonar.timerReadUs, Sonar.init, Sonar.read, List.foldl]

/-- Claim C5 (amended): before any falling-edge event has been processed
since construction, `read()` returns the "unknown" sentinel value, the -1
pulse width fed through the /58 conversion. -/
theorem read_sentinel_before_first_fall (es : List SEvent) (h : noFall es = true) :
    Sonar.read (sonarRun es) = -1 / 58 := by
  have hd : (sonarRun es).distance = -1 := foldl_distance_of_noFall es Sonar.init h
  rw [Sonar.read, hd]

theorem read_sentinel_before_first_fall_witness :
    noFall [SEvent.rise 3] = true ∧ Sonar.read (sonarRun [SEvent.rise 3]) = -1 / 58 :=
  ⟨rfl, read_sentinel_before_first_fall [SEvent.rise 3] rfl⟩

/-- Claim C6 (the code violates it): on a freshly constructed sensor no
capture is running and `distance` holds the -1 sentinel, yet delivering a
falling edge (here at time 5) runs the unguarded `echo_fall` and overwrites
`distance` with 0 — the spurious edge is not discarded. -/
theorem spurious_fall_overwrites_distance :
    Sonar.init.timerRunning = false ∧ Sonar.init.distance = -1 ∧
    (Sonar.echo_fall 5 Sonar.init).distance = 0 ∧
    (Sonar.echo_fall 5 Sonar.init).distance ≠ Sonar.init.distance := by
  refine ⟨rfl, rfl, ?_, ?_⟩ <;>
    norm_num [Sonar.echo_fall, Sonar.timerStop, Sonar.timerReadUs, Sonar.init]

/-- Claim C7: `start()` attaches the periodic callback with a fixed
20-millisecond (= 20/1000 second) period; each periodic invocation
(`background_read`) drives the trigger line high and arms the one-shot
`Timeout` with a 10-microsecond (= 10/1000000 second) delay; when that
one-shot fires it runs `trigger_toggle`, which drives the line low again. -/
theorem start_period_and_trigger_pulse (s : SonarState) :
    (Sonar.start s).tickerPeriod = some (20 / 1000) ∧
    (Sonar.background_read s).trigger = true ∧
    (Sonar.background_read s).timeoutDelay = some (10 / 1000000) ∧
    sonarStep (Sonar.background_read s) SEvent.timeoutFire
      = Sonar.trigger_toggle { Sonar.background_read s with timeoutDelay := none } ∧
    (Sonar.trigger_toggle (Sonar.background_read s)).trigger = false := by
  refine ⟨?_, rfl, rfl, ?_, rfl⟩
  · norm_num [Sonar.start]
  · simp [sonarStep, Sonar.background_read]

/-- Claim C8: after `stop()` the trigger line cannot remain asserted: in any
event trace that calls `stop` and then — with no further `start` — lets the
(possibly pending) one-shot pulse-clear fire, the final state has the
trigger line low, no pending one-shot, and the periodic ticker detached;
this covers `stop()` arriving between a trigger-high and its scheduled
10-microsecond clear. -/
theorem stop_leaves_trigger_low (es₁ es₂ : List SEvent)
    (h : SEvent.startCall ∉ es₂) :
    (sonarRun (es₁ ++ SEvent.stopCall :: (es₂ ++ [SEvent.timeoutFire]))).trigger = false ∧
    (sonarRun (es₁ ++ SEvent.stopCall :: (es₂ ++ [SEvent.timeoutFire]))).timeoutDelay = none ∧
    (sonarRun (es₁ ++ SEvent.stopCall :: (es₂ ++ [SEvent.timeoutFire]))).tickerPeriod = none := by
  have hrun : sonarRun (es₁ ++ SEvent.stopCall :: (es₂ ++ [SEvent.timeoutFire]))
      = sonarStep (es₂.foldl sonarStep (sonarStep (sonarRun es₁) SEvent.stopCall))
          SEvent.timeoutFire := by
    simp [sonarRun, List.foldl_append]
  set s3 := es₂.foldl sonarStep (sonarStep (sonarRun es₁) SEvent.stopCall) with hs3
  have hinv3 : triggerInv s3 := by
    apply foldl_triggerInv
    apply sonarStep_triggerInv
    exact foldl_triggerInv es₁ Sonar.init triggerInv_init
  have htick3 : s3.tickerPeriod = none := foldl_ticker_none es₂ _ h rfl
  rw [hrun]
  cases hto : s3.timeoutDelay with
  | none =>
      have htrig : s3.trigger = false := hinv3 hto
      simp [sonarStep, hto, htrig, htick3]
  | some d =>
      simp [sonarStep, hto, Sonar.trigger_toggle, htick3]

theorem stop_leaves_trigger_low_witness :
    SEvent.startCall ∉ ([] : List SEvent) ∧
    ((sonarRun ([SEvent.startCall, SEvent.tickerFire]
        ++ SEvent.stopCall :: (([] : List SEvent) ++ [SEvent.timeoutFire]))).trigger = false ∧
    (sonarRun ([SEvent.startCall, SEvent.tickerFire]
        ++ SEvent.stopCall :: (([] : List SEvent) ++ [SEvent.timeoutFire]))).timeoutDelay = none ∧
    (sonarRun ([SEvent.startCall, SEvent.tickerFire]
        ++ SEvent.stopCall :: (([] : List SEvent) ++ [SEvent.timeoutFire]))).tickerPeriod = none) :=
  ⟨by simp, stop_leaves_trigger_low [SEvent.startCall, SEvent.tickerFire] [] (by simp)⟩

/-- Claim C9: for duty-cycle arguments in [0, 1], every PWM write rendered by
the five motor functions gives each wheel's channel pair at most one nonzero
pulse width, and every written pulse width lies in [0, 20], the configured
period. -/
theorem motor_channels_invariant (l r : ℚ)
    (h0l : 0 ≤ l) (h1l : l ≤ 1) (h0r : 0 ≤ r) (h1r : r ≤ 1) :
    pwmOk (forward l r) ∧ pwmOk (backward l r) ∧ pwmOk stop ∧
    pwmOk (turnLeft l r) ∧ pwmOk (turnRight l r) := by
  have hl := cppInt_bounds (x := 20 * l) (by linarith) (by linarith)
  have hr := cppInt_bounds (x := 20 * r) (by linarith) (by linarith)
  exact ⟨⟨pairOk_left hr.1 hr.2, pairOk_left hl.1 hl.2⟩,
    ⟨pairOk_right hr.1 hr.2, pairOk_right hl.1 hl.2⟩,
    ⟨pairOk_left (x := 0) le_rfl (by norm_num), pairOk_left (x := 0) le_rfl (by norm_num)⟩,
    ⟨pairOk_left hr.1 hr.2, pairOk_right hl.1 hl.2⟩,
    ⟨pairOk_right hr.1 hr.2, pairOk_left hl.1 hl.2⟩⟩

theorem motor_channels_invariant_witness :
    ((0 : ℚ) ≤ 1/2 ∧ (1/2 : ℚ) ≤ 1) ∧
    (pwmOk (forward (1/2) (1/2)) ∧ pwmOk (backward (1/2) (1/2)) ∧ pwmOk stop ∧
      pwmOk (turnLeft (1/2) (1/2)) ∧ pwmOk (turnRight (1/2) (1/2))) :=
  ⟨⟨by norm_num, by norm_num⟩,
    motor_channels_invariant (1/2) (1/2) (by norm_num) (by norm_num) (by norm_num) (by norm_num)⟩

/-- Claim C10: the pre-measurement sentinel -1 is fed through the same /58
conversion, so `read()` on a fresh sensor returns -1/58; since -1/58 < 35,
the decision logic — which nowhere distinguishes the sentinel from a real
reading — commands Backward at (9/10, 9/10) for the first control-loop
iterations, whatever the lateral sensors report. -/
theorem initial_read_drives_backward :
    Sonar.read Sonar.init = -1 / 58 ∧
    Sonar.read Sonar.init < 35 ∧
    ∀ leftDist rightDist : ℚ,
      controlDecision (Sonar.read Sonar.init) leftDist rightDist
        = Cmd.backward (9/10) (9/10) := by
  have h : Sonar.read Sonar.init = -1 / 58 := by norm_num [Sonar.read, Sonar.init]
  refine ⟨h, ?_, ?_⟩
  · rw [h]; norm_num
  · intro l r
    exact controlDecision_of_front_lt _ l r (by rw [h]; norm_num)
